import Mathlib

/-!
Shallow embedding of the `ocs-deploy` infrastructure declarations
(`src/ocs_deploy/ecr.py`, `src/ocs_deploy/fargate.py`, `src/ocs_deploy/waf.py`).

Each CDK stack is a pure function from its configuration inputs to a record of
resource descriptors, mirroring the property bags the Python code passes to the
CDK constructs.  Python dicts are embedded as association lists with in-place
insert-or-replace semantics (`dictInsert`), matching Python dict assignment.
-/

namespace OcsDeploy

/-- One entry of the configuration's secrets list: a secret name and whether it
is managed (managed secrets are skipped by the container-secrets loop). -/
structure SecretEntry where
  name : String
  managed : Bool
deriving DecidableEq, Repr

/-- Modelled from the spec: `OCSConfig` (`ocs_deploy/config.py` is not part of
the provided sources).  Per the spec it is "an external configuration object
(names, regions, bucket names, feature flags, secret names)" with "secret names
flagged managed/unmanaged".  Only the fields the three stacks read are
modelled; each is an opaque configured value. -/
structure OCSConfig where
  namePref : String
  region : String
  azure_region : String
  rds_db_name : String
  s3_private_bucket_name : String
  s3_public_bucket_name : String
  s3_whatsapp_audio_bucket : String
  privacy_policy_url : String
  terms_url : String
  signup_enabled : String
  slack_bot_name : String
  taskbadger_org : String
  taskbadger_project : String
  django_secret_key_secrets_name : String
  ecr_repo_name : String
  secrets : List SecretEntry
deriving DecidableEq, Repr

/-- Modelled from the spec: `OCSConfig.make_name`, the "stack/resource naming
scheme" — a configured name decorated with an environment-specific part,
embedded as prefixing. -/
def OCSConfig.make_name (cfg : OCSConfig) (s : String) : String :=
  cfg.namePref ++ s

/-- Embeds `config.get_secrets_list()` — the configured secrets list. -/
def OCSConfig.get_secrets_list (cfg : OCSConfig) : List SecretEntry :=
  cfg.secrets

/-- Python dict assignment `d[k] = v` on an association list: replace the value
in place if the key is present, otherwise append the new pair at the end.
This is exactly CPython's insertion-order-preserving dict update. -/
def dictInsert {α : Type} (k : String) (v : α) : List (String × α) → List (String × α)
  | [] => [(k, v)]
  | (k', v') :: rest => if k' = k then (k, v) :: rest else (k', v') :: dictInsert k v rest

/-- Python dict lookup `d[k]` (as an option). -/
def dictFind {α : Type} (k : String) : List (String × α) → Option α
  | [] => none
  | (k', v') :: rest => if k' = k then some v' else dictFind k rest

/-- Number of entries of an association list carrying the key `k`. -/
def keyCount {α : Type} (m : List (String × α)) (k : String) : Nat :=
  (m.filter (fun p => p.1 = k)).length

/-- The keys of an association list, in order. -/
def keys {α : Type} (m : List (String × α)) : List String :=
  m.map (fun p => p.1)

/-- Python's `str.upper()` as applied to the (ASCII) secret names: uppercase
every character.  (Defined over the character list so that it evaluates by
kernel reduction; on ASCII input it agrees with `String.toUpper`.) -/
def pyUpper (s : String) : String :=
  String.mk (s.data.map Char.toUpper)

/-! ## ECS / IAM descriptor types (the CDK property bags the code fills in) -/

/-- Embeds `ecs.Secret`: either `from_secrets_manager(secret, field=...)` or
`from_secrets_manager(secret)` (whole secret).  The secret is identified by the
name/id the code passes. -/
inductive EcsSecret where
  | fromSecretsManagerField (secretId : String) (field : String)
  | fromSecretsManager (secretId : String)
deriving DecidableEq, Repr

/-- Embeds `ecs.ContainerImage.from_ecr_repository(repo, tag)` -/
structure ContainerImage where
  repository : String
  tag : String
deriving DecidableEq, Repr

/-- Embeds `ecs.PortMapping` -/
structure PortMapping where
  containerPort : Nat
deriving DecidableEq, Repr

/-- Embeds `ecs.AwsLogDriver(stream_prefix=...)` (the stream-name prefix argument). -/
structure AwsLogDriver where
  streamPref : String
deriving DecidableEq, Repr

/-- Embeds `ecs.ContainerDependencyCondition` -/
inductive ContainerDependencyCondition where
  | START
  | COMPLETE
  | SUCCESS
  | HEALTHY
deriving DecidableEq, Repr

/-- Embeds `ecs.ContainerDependency`: the depended-on container (by container name)
and the start condition. -/
structure ContainerDependency where
  container : String
  condition : ContainerDependencyCondition
deriving DecidableEq, Repr

/-- One container of a task definition, as configured by
`django_task.add_container(...)` plus any `add_container_dependencies` calls. -/
structure ContainerDefinition where
  containerName : String
  image : ContainerImage
  command : Option (List String)
  healthCheck : Option Unit
  essential : Bool
  portMappings : List PortMapping
  environment : List (String × String)
  secrets : List (String × EcsSecret)
  logging : AwsLogDriver
  containerDependencies : List ContainerDependency
deriving DecidableEq, Repr

/-- Embeds `iam.Effect` -/
inductive IamEffect where
  | ALLOW
  | DENY
deriving DecidableEq, Repr

/-- Embeds `iam.PolicyStatement` (service principals are recorded by name). -/
structure PolicyStatement where
  actions : List String
  effect : IamEffect
  resources : List String
  principals : List String
deriving DecidableEq, Repr

/-- Embeds `iam.Role` with inline statements and managed policies. -/
structure IamRole where
  assumedBy : String
  managedPolicies : List String
  statements : List PolicyStatement
deriving DecidableEq, Repr

/-- Embeds `ecs.FargateTaskDefinition` together with its added containers. -/
structure FargateTaskDefinition where
  cpu : Nat
  memoryLimitMiB : Nat
  executionRole : IamRole
  taskRole : IamRole
  containers : List ContainerDefinition
deriving DecidableEq, Repr

/-! ## Inputs from sibling stacks (external collaborators) -/

/-- The outputs `fargate.py` reads from the RDS stack: the DB instance endpoint
and the instance secret (holding `username` / `password` fields). -/
structure RdsStack where
  hostname : String
  port : String
  dbSecretId : String
deriving DecidableEq, Repr

/-- The output `fargate.py` reads from the Redis stack. -/
structure RedisStack where
  redisUrlSecretId : String
deriving DecidableEq, Repr

/-! ## `FargateStack._get_task_role` / `_get_execution_role` -/

/-- An S3 object ARN pattern `arn:aws:s3:::<bucket>/*`, as written by each of
the three f-strings in `_get_task_role`. -/
def s3ArnPattern (bucket : String) : String :=
  "arn:aws:s3:::" ++ bucket ++ "/*"

/-- The single S3 policy statement of the task role.  The Python source lists
the three f-strings with no comma between them, so Python's adjacent-literal
concatenation yields a one-element `resources` list. -/
def taskRoleS3Statement (cfg : OCSConfig) : PolicyStatement :=
  { actions := ["s3:PutObject", "s3:GetObjectAcl", "s3:GetObject", "s3:ListBucket",
      "s3:DeleteObject", "s3:PutObjectAcl", "s3:GetBucketAcl"]
    effect := IamEffect.ALLOW
    resources := [s3ArnPattern cfg.s3_private_bucket_name
      ++ s3ArnPattern cfg.s3_public_bucket_name
      ++ s3ArnPattern cfg.s3_whatsapp_audio_bucket]
    principals := [] }

/-- Embeds `FargateStack._get_task_role` -/
def get_task_role (cfg : OCSConfig) : IamRole :=
  { assumedBy := "ecs-tasks.amazonaws.com"
    managedPolicies := []
    statements := [taskRoleS3Statement cfg] }

/-- Embeds `FargateStack._get_execution_role` -/
def get_execution_role : IamRole :=
  { assumedBy := "ecs-tasks.amazonaws.com"
    managedPolicies := ["service-role/AmazonECSTaskExecutionRolePolicy"]
    statements := [
      { actions := ["ecr:GetAuthorizationToken", "ecr:BatchCheckLayerAvailability",
          "ecr:GetDownloadUrlForLayer", "ecr:BatchGetImage",
          "logs:CreateLogStream", "logs:PutLogEvents"]
        effect := IamEffect.ALLOW
        resources := ["*"]
        principals := [] }] }

/-! ## `FargateStack._get_task_definition` -/

/-- The `container_port` local of `_get_task_definition`. -/
def container_port : Nat := 8000

/-- The `environment` dict literal of `_get_task_definition`, in source order. -/
def djangoEnvironment (cfg : OCSConfig) (rds : RdsStack) : List (String × String) :=
  [("ACCOUNT_EMAIL_VERIFICATION", "mandatory"),
   ("AWS_PRIVATE_STORAGE_BUCKET_NAME", cfg.s3_private_bucket_name),
   ("AWS_PUBLIC_STORAGE_BUCKET_NAME", cfg.s3_public_bucket_name),
   ("AWS_S3_REGION", cfg.region),
   ("AZURE_REGION", cfg.azure_region),
   ("DJANGO_DATABASE_NAME", cfg.rds_db_name),
   ("DJANGO_DATABASE_HOST", rds.hostname),
   ("DJANGO_DATABASE_PORT", rds.port),
   ("DJANGO_EMAIL_BACKEND", "anymail.backends.amazon_ses.EmailBackend"),
   ("DJANGO_SECURE_SSL_REDIRECT", "false"),
   ("DJANGO_SETTINGS_MODULE", "gpt_playground.settings_production"),
   ("PORT", toString container_port),
   ("PRIVACY_POLICY_URL", cfg.privacy_policy_url),
   ("TERMS_URL", cfg.terms_url),
   ("SIGNUP_ENABLED", cfg.signup_enabled),
   ("SLACK_BOT_NAME", cfg.slack_bot_name),
   ("USE_S3_STORAGE", "True"),
   ("WHATSAPP_S3_AUDIO_BUCKET", cfg.s3_whatsapp_audio_bucket),
   ("TASKBADGER_ORG", cfg.taskbadger_org),
   ("TASKBADGER_PROJECT", cfg.taskbadger_project)]

/-- The four built-in entries of the `secrets` dict literal of
`_get_task_definition` (database user/password, redis url, django secret key). -/
def builtinSecrets (cfg : OCSConfig) (rds : RdsStack) (redis : RedisStack) :
    List (String × EcsSecret) :=
  [("DJANGO_DATABASE_USER", EcsSecret.fromSecretsManagerField rds.dbSecretId "username"),
   ("DJANGO_DATABASE_PASSWORD", EcsSecret.fromSecretsManagerField rds.dbSecretId "password"),
   ("REDIS_URL", EcsSecret.fromSecretsManager redis.redisUrlSecretId),
   ("SECRET_KEY", EcsSecret.fromSecretsManager cfg.django_secret_key_secrets_name)]

/-- The keys of the four built-in secret entries. -/
def builtinSecretKeys : List String :=
  ["DJANGO_DATABASE_USER", "DJANGO_DATABASE_PASSWORD", "REDIS_URL", "SECRET_KEY"]

/-- One iteration of the `for secret in config.get_secrets_list()` loop:
managed secrets are skipped, unmanaged ones are inserted under their uppercased
name with a name-based secret lookup (`Secret.from_secret_name_v2`). -/
def secretsLoopStep (m : List (String × EcsSecret)) (s : SecretEntry) :
    List (String × EcsSecret) :=
  if s.managed then m
  else dictInsert (pyUpper s.name) (EcsSecret.fromSecretsManager s.name) m

/-- The `secrets` dict after the loop over `config.get_secrets_list()`. -/
def containerSecrets (cfg : OCSConfig) (rds : RdsStack) (redis : RedisStack) :
    List (String × EcsSecret) :=
  cfg.get_secrets_list.foldl secretsLoopStep (builtinSecrets cfg rds redis)

/-- Embeds `FargateStack._get_task_definition`: the two-container task definition. -/
def get_task_definition (cfg : OCSConfig) (rds : RdsStack) (redis : RedisStack)
    (ecrRepo : String) : FargateTaskDefinition :=
  let log_driver : AwsLogDriver := { streamPref := cfg.make_name "" }
  let environment := djangoEnvironment cfg rds
  let secrets := containerSecrets cfg rds redis
  let image : ContainerImage := { repository := ecrRepo, tag := "latest" }
  let migration_container : ContainerDefinition :=
    { containerName := "migrate"
      image := image
      command := some ["python", "manage.py", "migrate"]
      healthCheck := none
      essential := false
      portMappings := []
      environment := environment
      secrets := secrets
      logging := log_driver
      containerDependencies := [] }
  let webserver_container : ContainerDefinition :=
    { containerName := "web"
      image := image
      command := none
      healthCheck := none
      essential := true
      portMappings := [{ containerPort := container_port }]
      environment := environment
      secrets := secrets
      logging := log_driver
      containerDependencies :=
        [{ container := "migrate", condition := ContainerDependencyCondition.SUCCESS }] }
  { cpu := 256
    memoryLimitMiB := 512
    executionRole := get_execution_role
    taskRole := get_task_role cfg
    containers := [migration_container, webserver_container] }

/-! ## `FargateStack.setup_fargate_service` -/

/-- An ingress rule of a security group (`add_ingress_rule(peer, port)`). -/
structure IngressRule where
  peer : String
  tcpPort : Nat
deriving DecidableEq, Repr

/-- Embeds `ec2.SecurityGroup` with its ingress rules. -/
structure SecurityGroup where
  allowAllOutbound : Bool
  ingressRules : List IngressRule
deriving DecidableEq, Repr

/-- The autoscaling policy configured by `auto_scale_task_count` and
`scale_on_cpu_utilization`. -/
structure ScalingPolicy where
  maxCapacity : Nat
  minCapacity : Nat
  targetUtilizationPercent : Nat
  scaleInCooldownSeconds : Nat
  scaleOutCooldownSeconds : Nat
deriving DecidableEq, Repr

/-- Embeds `ecs_patterns.ApplicationLoadBalancedFargateService` plus the scaling
policy attached to its service. -/
structure LoadBalancedFargateService where
  securityGroups : List SecurityGroup
  cpu : Nat
  memoryLimitMiB : Nat
  desiredCount : Nat
  publicLoadBalancer : Bool
  redirectHttp : Bool
  taskDefinition : FargateTaskDefinition
  scaling : ScalingPolicy
deriving DecidableEq, Repr

/-- Embeds `FargateStack.setup_fargate_service` -/
def setup_fargate_service (cfg : OCSConfig) (rds : RdsStack) (redis : RedisStack)
    (ecrRepo : String) : LoadBalancedFargateService :=
  let http_sg : SecurityGroup :=
    { allowAllOutbound := true, ingressRules := [{ peer := "0.0.0.0/0", tcpPort := 80 }] }
  let https_sg : SecurityGroup :=
    { allowAllOutbound := true, ingressRules := [{ peer := "0.0.0.0/0", tcpPort := 443 }] }
  { securityGroups := [http_sg, https_sg]
    cpu := 256
    memoryLimitMiB := 512
    desiredCount := 1
    publicLoadBalancer := true
    redirectHttp := true
    taskDefinition := get_task_definition cfg rds redis ecrRepo
    scaling :=
      { maxCapacity := 2
        minCapacity := 1
        targetUtilizationPercent := 70
        scaleInCooldownSeconds := 60
        scaleOutCooldownSeconds := 60 } }

/-! ## `WAFStack` (`src/ocs_deploy/waf.py`) -/

/-- Embeds `wafv2.CfnWebACL.ManagedRuleGroupStatementProperty` -/
structure ManagedRuleGroupStatement where
  vendorName : String
  name : String
deriving DecidableEq, Repr

/-- Embeds `wafv2.CfnWebACL.RateBasedStatementProperty` -/
structure RateBasedStatement where
  limit : Nat
  aggregateKeyType : String
deriving DecidableEq, Repr

/-- Embeds `wafv2.CfnWebACL.StatementProperty` (the variants this code uses). -/
inductive WafStatement where
  | managedRuleGroup (s : ManagedRuleGroupStatement)
  | rateBased (s : RateBasedStatement)
deriving DecidableEq, Repr

/-- Embeds `wafv2.CfnWebACL.RuleActionProperty` -/
inductive RuleAction where
  | count
  | block
  | allow
deriving DecidableEq, Repr

/-- Embeds `wafv2.CfnWebACL.OverrideActionProperty` (count, or none = use the rule
group's own actions). -/
inductive OverrideAction where
  | count
  | noneAction
deriving DecidableEq, Repr

/-- Embeds `wafv2.CfnWebACL.DefaultActionProperty` -/
inductive DefaultAction where
  | allow
  | block
deriving DecidableEq, Repr

/-- Embeds `wafv2.CfnWebACL.VisibilityConfigProperty` -/
structure VisibilityConfig where
  cloudWatchMetricsEnabled : Bool
  metricName : String
  sampledRequestsEnabled : Bool
deriving DecidableEq, Repr

/-- Embeds `wafv2.CfnWebACL.RuleProperty` -/
structure WafRule where
  name : String
  priority : Nat
  statement : WafStatement
  action : Option RuleAction
  overrideAction : Option OverrideAction
  visibilityConfig : VisibilityConfig
deriving DecidableEq, Repr

/-- Embeds `wafv2.CfnWebACL` -/
structure CfnWebACL where
  name : String
  scope : String
  defaultAction : DefaultAction
  visibilityConfig : VisibilityConfig
  rules : List WafRule
deriving DecidableEq, Repr

/-- Embeds `wafv2.CfnWebACLAssociation` -/
structure WebACLAssociation where
  webAclArn : String
  resourceArn : String
deriving DecidableEq, Repr

/-- Embeds `logs.RetentionDays` (the values relevant here). -/
inductive RetentionDays where
  | ONE_WEEK
  | ONE_MONTH
  | ONE_YEAR
  | TWO_YEARS
  | INFINITE
deriving DecidableEq, Repr

/-- Embeds `RemovalPolicy` -/
inductive RemovalPolicy where
  | DESTROY
  | RETAIN
deriving DecidableEq, Repr

/-- Embeds `logs.LogGroup` together with the resource-policy statements added to it by
`add_to_resource_policy` (in CDK each such statement lives in a resource-policy
resource created inside the log group construct's scope). -/
structure LogGroup where
  logGroupName : String
  retention : RetentionDays
  removalPolicy : RemovalPolicy
  resourcePolicyStatements : List PolicyStatement
deriving DecidableEq, Repr

/-- Embeds `wafv2.CfnLoggingConfiguration`, with the construct-level dependencies added
via `node.add_dependency` recorded by construct id.  A CDK node dependency on a
construct orders this resource after every resource in that construct's
subtree. -/
structure CfnLoggingConfiguration where
  resourceArn : String
  logDestinationConfigs : List String
  dependsOnConstructs : List String
deriving DecidableEq, Repr

/-- The construct id of the WAF log group (`logs.LogGroup(self, "WAFLogGroup", ...)`). -/
def wafLogGroupId : String := "WAFLogGroup"

/-- The unresolved CDK token for `log_group.log_group_arn` at synthesis time. -/
def wafLogGroupArn : String := "TOKEN.WAFLogGroup.Arn"

/-- The unresolved CDK token for `self.web_acl.attr_arn` at synthesis time. -/
def wafWebAclArn : String := "TOKEN.DjangoWebACL.Arn"

/-- The resource-policy statement `waf.py` adds to the log group: the firewall
service principal may create log streams and put log events on the group. -/
def wafLogAccessPolicy : PolicyStatement :=
  { actions := ["logs:CreateLogStream", "logs:PutLogEvents"]
    effect := IamEffect.ALLOW
    resources := [wafLogGroupArn]
    principals := ["wafv2.amazonaws.com"] }

/-- The resources produced by `WAFStack.__init__`. -/
structure WAFStack where
  webAcl : CfnWebACL
  association : WebACLAssociation
  logGroupId : String
  logGroup : LogGroup
  loggingConfig : CfnLoggingConfiguration
deriving DecidableEq, Repr

/-- Embeds `WAFStack.__init__`: web ACL, ALB association, log group with resource
policy, and logging configuration with an explicit node dependency on the log
group construct. -/
def wafStack (cfg : OCSConfig) (loadBalancerArn : String) : WAFStack :=
  let web_acl : CfnWebACL :=
    { name := cfg.make_name "DjangoWAF"
      scope := "REGIONAL"
      defaultAction := DefaultAction.allow
      visibilityConfig :=
        { cloudWatchMetricsEnabled := true
          metricName := cfg.make_name "DjangoWAFMetrics"
          sampledRequestsEnabled := true }
      rules := [
        { name := "AWSManagedCommonRuleSet"
          priority := 0
          statement := WafStatement.managedRuleGroup
            { vendorName := "AWS", name := "AWSManagedRulesCommonRuleSet" }
          action := none
          overrideAction := some OverrideAction.count
          visibilityConfig :=
            { cloudWatchMetricsEnabled := true
              metricName := cfg.make_name "CommonRuleSetMetrics"
              sampledRequestsEnabled := true } },
        { name := "RateLimitRule"
          priority := 1
          statement := WafStatement.rateBased { limit := 2000, aggregateKeyType := "IP" }
          action := some RuleAction.count
          overrideAction := none
          visibilityConfig :=
            { cloudWatchMetricsEnabled := true
              metricName := cfg.make_name "RateLimitMetrics"
              sampledRequestsEnabled := true } }] }
  let log_group : LogGroup :=
    { logGroupName := "aws-waf-logs-" ++ cfg.make_name "waf-logs"
      retention := RetentionDays.TWO_YEARS
      removalPolicy := RemovalPolicy.RETAIN
      resourcePolicyStatements := [wafLogAccessPolicy] }
  { webAcl := web_acl
    association := { webAclArn := wafWebAclArn, resourceArn := loadBalancerArn }
    logGroupId := wafLogGroupId
    logGroup := log_group
    loggingConfig :=
      { resourceArn := wafWebAclArn
        logDestinationConfigs := [wafLogGroupArn.replace ":*" ""]
        dependsOnConstructs := [wafLogGroupId] } }

/-! ## `EcrStack` (`src/ocs_deploy/ecr.py`) -/

/-- Embeds `ecr.TagStatus` -/
inductive TagStatus where
  | ANY
  | TAGGED
  | UNTAGGED
deriving DecidableEq, Repr

/-- One `add_lifecycle_rule` call's configuration. -/
structure LifecycleRule where
  maxImageAgeDays : Option Nat
  maxImageCount : Option Nat
  rulePriority : Nat
  tagStatus : TagStatus
deriving DecidableEq, Repr

/-- Embeds `ecr.Repository` with its lifecycle rules. -/
structure EcrRepository where
  repositoryName : String
  removalPolicy : RemovalPolicy
  lifecycleRules : List LifecycleRule
deriving DecidableEq, Repr

/-- Embeds `EcrStack.setup_ecr`: the registry with its two retention rules. -/
def setup_ecr (cfg : OCSConfig) : EcrRepository :=
  { repositoryName := cfg.ecr_repo_name
    removalPolicy := RemovalPolicy.DESTROY
    lifecycleRules := [
      { maxImageAgeDays := some 7
        maxImageCount := none
        rulePriority := 1
        tagStatus := TagStatus.UNTAGGED },
      { maxImageAgeDays := none
        maxImageCount := some 4
        rulePriority := 2
        tagStatus := TagStatus.ANY }] }

/-! ## Association-list lemmas (Python dict semantics) -/

theorem keys_dictInsert {α : Type} (k : String) (v : α) (m : List (String × α)) :
    keys (dictInsert k v m) = if k ∈ keys m then keys m else keys m ++ [k] := by
  induction m with
  | nil => simp [dictInsert, keys]
  | cons p rest ih =>
    by_cases h : p.1 = k
    · simp [dictInsert, keys, h]
    · simp only [dictInsert, h, if_false, keys, List.map_cons, List.mem_cons]
      simp only [keys] at ih
      rw [ih]
      by_cases hk : k ∈ rest.map Prod.fst
      · simp [hk, Ne.symm h]
      · simp [hk, Ne.symm h]

theorem mem_keys_dictInsert {α : Type} (k k' : String) (v : α) (m : List (String × α)) :
    k' ∈ keys (dictInsert k v m) ↔ k' = k ∨ k' ∈ keys m := by
  rw [keys_dictInsert]
  by_cases h : k ∈ keys m
  · simp only [h, if_true]
    constructor
    · intro h'; exact Or.inr h'
    · intro h'; rcases h' with h' | h'
      · exact h' ▸ h
      · exact h'
  · simp [h, List.mem_append, or_comm]

theorem nodup_keys_dictInsert {α : Type} (k : String) (v : α) (m : List (String × α))
    (h : (keys m).Nodup) : (keys (dictInsert k v m)).Nodup := by
  rw [keys_dictInsert]
  by_cases hk : k ∈ keys m
  · simpa [hk] using h
  · simpa [hk, List.nodup_append] using h

theorem length_dictInsert {α : Type} (k : String) (v : α) (m : List (String × α)) :
    (dictInsert k v m).length = if k ∈ keys m then m.length else m.length + 1 := by
  induction m with
  | nil => simp [dictInsert, keys]
  | cons p rest ih =>
    by_cases h : p.1 = k
    · simp [dictInsert, keys, h]
    · simp only [dictInsert, h, if_false, List.length_cons, ih, keys, List.map_cons,
        List.mem_cons]
      by_cases hk : k ∈ keys rest
      · simp only [keys] at hk
        simp [hk, Ne.symm h]
      · simp only [keys] at hk
        simp [hk, Ne.symm h]

theorem dictFind_dictInsert_self {α : Type} (k : String) (v : α) (m : List (String × α)) :
    dictFind k (dictInsert k v m) = some v := by
  induction m with
  | nil => simp [dictInsert, dictFind]
  | cons p rest ih =>
    by_cases h : p.1 = k
    · simp [dictInsert, dictFind, h]
    · simp [dictInsert, dictFind, h, ih]

theorem dictFind_dictInsert_ne {α : Type} (k k' : String) (v : α) (m : List (String × α))
    (h : k' ≠ k) : dictFind k' (dictInsert k v m) = dictFind k' m := by
  induction m with
  | nil => simp [dictInsert, dictFind, Ne.symm h]
  | cons p rest ih =>
    obtain ⟨k1, v1⟩ := p
    by_cases hp : k1 = k
    · subst hp
      simp [dictInsert, dictFind, Ne.symm h, h]
    · by_cases hp' : k1 = k'
      · subst hp'
        simp [dictInsert, dictFind, hp]
      · simp [dictInsert, dictFind, hp, hp', ih]

theorem keyCount_eq_count {α : Type} (m : List (String × α)) (k : String) :
    keyCount m k = (keys m).count k := by
  induction m with
  | nil => simp [keyCount, keys]
  | cons p rest ih =>
    by_cases h : p.1 = k
    · simp [keyCount, keys, List.count_cons, h] at ih ⊢
      omega
    · simp [keyCount, keys, List.count_cons, h] at ih ⊢
      exact ih

theorem keyCount_eq_one {α : Type} (m : List (String × α)) (k : String)
    (hn : (keys m).Nodup) (hk : k ∈ keys m) : keyCount m k = 1 := by
  rw [keyCount_eq_count]
  exact List.count_eq_one_of_mem hn hk

/-! ## Lemmas about the container-secrets loop -/

/-- The uppercased names of the unmanaged secrets of a secrets list, in order. -/
def unmanagedNames (l : List SecretEntry) : List String :=
  (l.filter fun s => !s.managed).map (fun s => pyUpper s.name)

theorem secretsLoopStep_managed (m : List (String × EcsSecret)) (s : SecretEntry)
    (h : s.managed = true) : secretsLoopStep m s = m := by
  simp [secretsLoopStep, h]

theorem secretsLoopStep_unmanaged (m : List (String × EcsSecret)) (s : SecretEntry)
    (h : s.managed = false) :
    secretsLoopStep m s = dictInsert (pyUpper s.name) (EcsSecret.fromSecretsManager s.name) m := by
  simp [secretsLoopStep, h]

theorem unmanagedNames_cons_managed (s : SecretEntry) (l : List SecretEntry)
    (h : s.managed = true) : unmanagedNames (s :: l) = unmanagedNames l := by
  simp [unmanagedNames, List.filter_cons, h]

theorem unmanagedNames_cons_unmanaged (s : SecretEntry) (l : List SecretEntry)
    (h : s.managed = false) :
    unmanagedNames (s :: l) = pyUpper s.name :: unmanagedNames l := by
  simp [unmanagedNames, List.filter_cons, h]

theorem mem_keys_secretsLoop (l : List SecretEntry) :
    ∀ (init : List (String × EcsSecret)) (k : String),
      k ∈ keys (l.foldl secretsLoopStep init) ↔ k ∈ keys init ∨ k ∈ unmanagedNames l := by
  induction l with
  | nil => intro init k; simp [unmanagedNames]
  | cons a rest ih =>
    intro init k
    cases ha : a.managed with
    | true =>
      rw [List.foldl_cons, secretsLoopStep_managed init a ha, ih,
        unmanagedNames_cons_managed a rest ha]
    | false =>
      rw [List.foldl_cons, secretsLoopStep_unmanaged init a ha, ih,
        mem_keys_dictInsert, unmanagedNames_cons_unmanaged a rest ha, List.mem_cons]
      tauto

theorem nodup_keys_secretsLoop (l : List SecretEntry) :
    ∀ (init : List (String × EcsSecret)), (keys init).Nodup →
      (keys (l.foldl secretsLoopStep init)).Nodup := by
  induction l with
  | nil => intro init h; exact h
  | cons a rest ih =>
    intro init h
    cases ha : a.managed with
    | true =>
      rw [List.foldl_cons, secretsLoopStep_managed init a ha]
      exact ih init h
    | false =>
      rw [List.foldl_cons, secretsLoopStep_unmanaged init a ha]
      exact ih _ (nodup_keys_dictInsert _ _ init h)

theorem dictFind_secretsLoop_absent (l : List SecretEntry) :
    ∀ (init : List (String × EcsSecret)) (k : String),
      (∀ s ∈ l, s.managed = false → pyUpper s.name ≠ k) →
      dictFind k (l.foldl secretsLoopStep init) = dictFind k init := by
  induction l with
  | nil => intro init k _; rfl
  | cons a rest ih =>
    intro init k h
    cases ha : a.managed with
    | true =>
      rw [List.foldl_cons, secretsLoopStep_managed init a ha]
      exact ih init k (fun s hs => h s (List.mem_cons_of_mem a hs))
    | false =>
      rw [List.foldl_cons, secretsLoopStep_unmanaged init a ha,
        ih _ k (fun s hs => h s (List.mem_cons_of_mem a hs))]
      exact dictFind_dictInsert_ne _ _ _ _
        (Ne.symm (h a (List.mem_cons_self a rest) ha))

theorem dictFind_secretsLoop_last (l₁ l₂ : List SecretEntry) (s : SecretEntry)
    (init : List (String × EcsSecret)) (hs : s.managed = false)
    (hlast : ∀ u ∈ l₂, u.managed = false → pyUpper u.name ≠ pyUpper s.name) :
    dictFind (pyUpper s.name) ((l₁ ++ s :: l₂).foldl secretsLoopStep init) =
      some (EcsSecret.fromSecretsManager s.name) := by
  rw [List.foldl_append, List.foldl_cons, secretsLoopStep_unmanaged _ s hs,
    dictFind_secretsLoop_absent l₂ _ _ hlast]
  exact dictFind_dictInsert_self _ _ _

theorem length_secretsLoop (l : List SecretEntry) :
    ∀ (init : List (String × EcsSecret)), (unmanagedNames l).Nodup →
      (∀ k ∈ unmanagedNames l, k ∉ keys init) →
      (l.foldl secretsLoopStep init).length = init.length + (unmanagedNames l).length := by
  induction l with
  | nil => intro init _ _; simp [unmanagedNames]
  | cons a rest ih =>
    intro init hnd habs
    cases ha : a.managed with
    | true =>
      rw [unmanagedNames_cons_managed a rest ha] at hnd habs
      rw [List.foldl_cons, secretsLoopStep_managed init a ha,
        unmanagedNames_cons_managed a rest ha]
      exact ih init hnd habs
    | false =>
      rw [unmanagedNames_cons_unmanaged a rest ha] at hnd habs
      rw [List.foldl_cons, secretsLoopStep_unmanaged init a ha,
        unmanagedNames_cons_unmanaged a rest ha]
      have hka : pyUpper a.name ∉ keys init :=
        habs (pyUpper a.name) (List.mem_cons_self _ _)
      have hlen : (dictInsert (pyUpper a.name) (EcsSecret.fromSecretsManager a.name)
          init).length = init.length + 1 := by
        rw [length_dictInsert]
        simp [hka]
      have habs' : ∀ k ∈ unmanagedNames rest,
          k ∉ keys (dictInsert (pyUpper a.name) (EcsSecret.fromSecretsManager a.name) init) := by
        intro k hk
        rw [mem_keys_dictInsert]
        rintro (h | h)
        · exact (List.nodup_cons.mp hnd).1 (h ▸ hk)
        · exact habs k (List.mem_cons_of_mem _ hk) h
      rw [ih _ (List.nodup_cons.mp hnd).2 habs', hlen]
      simp [Nat.add_assoc, Nat.add_comm 1]

theorem secretsLoop_filter_unmanaged (l : List SecretEntry) :
    ∀ (init : List (String × EcsSecret)),
      (l.filter fun s => !s.managed).foldl secretsLoopStep init =
        l.foldl secretsLoopStep init := by
  induction l with
  | nil => intro init; rfl
  | cons a rest ih =>
    intro init
    cases ha : a.managed with
    | true =>
      rw [List.foldl_cons, secretsLoopStep_managed init a ha]
      have : List.filter (fun s => !s.managed) (a :: rest) =
          List.filter (fun s => !s.managed) rest := by
        simp [List.filter_cons, ha]
      rw [this]
      exact ih init
    | false =>
      have : List.filter (fun s => !s.managed) (a :: rest) =
          a :: List.filter (fun s => !s.managed) rest := by
        simp [List.filter_cons, ha]
      rw [this, List.foldl_cons, List.foldl_cons]
      exact ih _

theorem keys_builtinSecrets (cfg : OCSConfig) (rds : RdsStack) (redis : RedisStack) :
    keys (builtinSecrets cfg rds redis) = builtinSecretKeys := rfl

theorem nodup_builtinSecretKeys : builtinSecretKeys.Nodup := by decide

theorem unmanagedNames_append (l₁ l₂ : List SecretEntry) :
    unmanagedNames (l₁ ++ l₂) = unmanagedNames l₁ ++ unmanagedNames l₂ := by
  simp [unmanagedNames]

theorem mem_unmanagedNames (u : SecretEntry) (l : List SecretEntry) (hu : u ∈ l)
    (h : u.managed = false) : pyUpper u.name ∈ unmanagedNames l :=
  List.mem_map_of_mem _ (List.mem_filter.mpr ⟨hu, by simp [h]⟩)

/-! ## Concrete inputs used by the witnesses -/

/-- A sample secrets list: one unmanaged and one managed secret. -/
def sampleSecretsList : List SecretEntry :=
  [{ name := "azure_openai_key", managed := false },
   { name := "taskbadger_api_token", managed := true }]

/-- A sample configuration bundle. -/
def sampleConfig : OCSConfig :=
  { namePref := "ocs-dev-"
    region := "us-east-1"
    azure_region := "eastus"
    rds_db_name := "ocs"
    s3_private_bucket_name := "ocs-private"
    s3_public_bucket_name := "ocs-public"
    s3_whatsapp_audio_bucket := "ocs-whatsapp-audio"
    privacy_policy_url := "https://example.com/privacy"
    terms_url := "https://example.com/terms"
    signup_enabled := "true"
    slack_bot_name := "ocs-bot"
    taskbadger_org := "ocs"
    taskbadger_project := "web"
    django_secret_key_secrets_name := "django-secret-key"
    ecr_repo_name := "ocs-ecr"
    secrets := sampleSecretsList }

/-- Sample database-stack outputs. -/
def sampleRds : RdsStack :=
  { hostname := "db.internal", port := "5432", dbSecretId := "rds-db-secret" }

/-- Sample cache-stack output. -/
def sampleRedis : RedisStack := { redisUrlSecretId := "redis-url-secret" }

/-- A configuration whose secrets list holds two unmanaged secrets with
distinct configured names that uppercase to the same string.  (The raw names
are distinct, so in the real stack the two loop iterations register distinct
construct ids and both run; only the dict key collides.) -/
def dupSecretsConfig : OCSConfig :=
  { sampleConfig with secrets :=
      [{ name := "extra_token", managed := false },
       { name := "EXTRA_TOKEN", managed := false }] }

/-- A configuration with one unmanaged secret whose uppercased name collides
with the built-in key SECRET_KEY. -/
def overrideConfig : OCSConfig :=
  { sampleConfig with secrets := [{ name := "secret_key", managed := false }] }

/-! ## Claim statements and theorems -/

/-- Statement of claim C1 for given stack inputs: the task definition has
exactly the two containers migrate (non-essential) and web (essential), and
web's only container dependency is on migrate with condition SUCCESS. -/
def C1Statement (cfg : OCSConfig) (rds : RdsStack) (redis : RedisStack)
    (repo : String) : Prop :=
  (get_task_definition cfg rds redis repo).containers.length = 2 ∧
  ((get_task_definition cfg rds redis repo).containers.map fun c => c.containerName)
    = ["migrate", "web"] ∧
  ((get_task_definition cfg rds redis repo).containers.map fun c => c.essential)
    = [false, true] ∧
  ((get_task_definition cfg rds redis repo).containers.map fun c => c.containerDependencies)
    = [[], [{ container := "migrate", condition := ContainerDependencyCondition.SUCCESS }]] ∧
  ContainerDependencyCondition.SUCCESS ≠ ContainerDependencyCondition.START ∧
  ContainerDependencyCondition.SUCCESS ≠ ContainerDependencyCondition.COMPLETE

/-- C1: the task definition always contains exactly two containers — a
non-essential "migrate" container and an essential "web" container — and the
web container declares exactly one container dependency, on the migration
container, with condition SUCCESS (never START or COMPLETE). -/
theorem c1_task_definition_migration_gate (cfg : OCSConfig) (rds : RdsStack)
    (redis : RedisStack) (repo : String) : C1Statement cfg rds redis repo :=
  ⟨rfl, rfl, rfl, rfl, by decide, by decide⟩

/-- C1 witness: the property evaluated at the sample inputs. -/
theorem c1_sample : C1Statement sampleConfig sampleRds sampleRedis "ocs-ecr" :=
  c1_task_definition_migration_gate sampleConfig sampleRds sampleRedis "ocs-ecr"

/-- Statement of claim C2: the task role's single S3 statement carries a
one-element resources list holding the separator-free concatenation of the
three bucket ARN patterns, not three distinct ARNs. -/
def C2Statement (cfg : OCSConfig) : Prop :=
  (get_task_role cfg).statements = [taskRoleS3Statement cfg] ∧
  (taskRoleS3Statement cfg).resources =
    [s3ArnPattern cfg.s3_private_bucket_name ++ s3ArnPattern cfg.s3_public_bucket_name
      ++ s3ArnPattern cfg.s3_whatsapp_audio_bucket] ∧
  (taskRoleS3Statement cfg).resources.length = 1 ∧
  (taskRoleS3Statement cfg).resources ≠
    [s3ArnPattern cfg.s3_private_bucket_name, s3ArnPattern cfg.s3_public_bucket_name,
      s3ArnPattern cfg.s3_whatsapp_audio_bucket]

/-- C2: the task role's S3 policy statement has a resources list containing
exactly one string — the concatenation of the private, public and
whatsapp-audio bucket ARN patterns — rather than three distinct resource
ARNs (the Python source lists the three f-strings without commas, so
adjacent-literal concatenation applies). -/
theorem c2_task_role_s3_resources_concatenated (cfg : OCSConfig) : C2Statement cfg :=
  ⟨rfl, rfl, rfl, by simp [taskRoleS3Statement]⟩

/-- C2 witness: the property evaluated at the sample configuration. -/
theorem c2_sample : C2Statement sampleConfig :=
  c2_task_role_s3_resources_concatenated sampleConfig

/-- Statement of claim C3: the WAF log destination has two-year retention, the
firewall-principal access policy is always added to the log group, and the
logging configuration carries a node dependency on the log group construct —
the construct whose subtree holds that access-policy resource — so the policy
is deployed before the logging configuration. -/
def C3Statement (cfg : OCSConfig) (lbArn : String) : Prop :=
  (wafStack cfg lbArn).logGroup.retention = RetentionDays.TWO_YEARS ∧
  (wafStack cfg lbArn).logGroup.resourcePolicyStatements = [wafLogAccessPolicy] ∧
  wafLogAccessPolicy.actions = ["logs:CreateLogStream", "logs:PutLogEvents"] ∧
  wafLogAccessPolicy.principals = ["wafv2.amazonaws.com"] ∧
  wafLogAccessPolicy.resources = [wafLogGroupArn] ∧
  (wafStack cfg lbArn).loggingConfig.dependsOnConstructs = [(wafStack cfg lbArn).logGroupId]

/-- C3: the firewall declaration always creates the log destination with
two-year retention, always adds the access policy granting
wafv2.amazonaws.com CreateLogStream and PutLogEvents on it, and always adds
the dependency edge from the logging configuration to the log-group construct
whose subtree contains that policy (a CDK node dependency orders a resource
after every resource of the target construct). -/
theorem c3_waf_logging_policy_and_dependency (cfg : OCSConfig) (lbArn : String) :
    C3Statement cfg lbArn :=
  ⟨rfl, rfl, rfl, rfl, rfl, rfl⟩

/-- C3 witness: the property evaluated at the sample configuration. -/
theorem c3_sample : C3Statement sampleConfig "TOKEN.LoadBalancer.Arn" :=
  c3_waf_logging_policy_and_dependency sampleConfig "TOKEN.LoadBalancer.Arn"

/-- Statement of claim C4 for a secret entry `s` of the configuration: both
containers carry the loop-built secrets map; that map has exactly one entry
keyed by the uppercased name of the (unmanaged) secret `s`; and managed
secrets contribute nothing — dropping them from the configuration leaves the
map unchanged. -/
def C4Statement (cfg : OCSConfig) (rds : RdsStack) (redis : RedisStack)
    (repo : String) (s : SecretEntry) : Prop :=
  (((get_task_definition cfg rds redis repo).containers.map fun c => c.secrets) =
    [containerSecrets cfg rds redis, containerSecrets cfg rds redis]) ∧
  keyCount (containerSecrets cfg rds redis) (pyUpper s.name) = 1 ∧
  containerSecrets { cfg with secrets := cfg.secrets.filter fun t => !t.managed } rds redis
    = containerSecrets cfg rds redis

/-- C4: for every unmanaged secret of the configuration's secrets list, the
containers' secrets map has exactly one entry keyed by the uppercased
configured name of the secret, and managed secrets produce no entry (the map
is unchanged when they are removed from the configuration). -/
theorem c4_unmanaged_secret_injection (cfg : OCSConfig) (rds : RdsStack)
    (redis : RedisStack) (repo : String) (s : SecretEntry)
    (hs : s ∈ cfg.secrets) (hum : s.managed = false) :
    C4Statement cfg rds redis repo s := by
  refine ⟨rfl, ?_, ?_⟩
  · refine keyCount_eq_one _ _ ?_ ?_
    · exact nodup_keys_secretsLoop cfg.secrets (builtinSecrets cfg rds redis)
        (by rw [keys_builtinSecrets]; exact nodup_builtinSecretKeys)
    · exact (mem_keys_secretsLoop cfg.secrets (builtinSecrets cfg rds redis)
        (pyUpper s.name)).mpr (Or.inr (mem_unmanagedNames s cfg.secrets hs hum))
  · exact secretsLoop_filter_unmanaged cfg.secrets (builtinSecrets cfg rds redis)

/-- C4 witness: the unmanaged sample secret is in the sample configuration and
the property holds there. -/
theorem c4_sample :
    (⟨"azure_openai_key", false⟩ : SecretEntry) ∈ sampleConfig.secrets ∧
    (⟨"azure_openai_key", false⟩ : SecretEntry).managed = false ∧
    C4Statement sampleConfig sampleRds sampleRedis "ocs-ecr" ⟨"azure_openai_key", false⟩ :=
  ⟨by decide, rfl,
    c4_unmanaged_secret_injection sampleConfig sampleRds sampleRedis "ocs-ecr"
      ⟨"azure_openai_key", false⟩ (by decide) rfl⟩

/-- C8 counterexample: a configuration with two unmanaged secrets of distinct
configured names — "extra_token" and "EXTRA_TOKEN", so both loop iterations
run (distinct construct ids) — whose uppercased names coincide, and neither
collides with a built-in key.  The dict collapses the two inserts into one
entry, so the map has 5 entries while the claim predicts 4 + 2 = 6. -/
theorem c8_counterexample_uppercase_collision :
    ((dupSecretsConfig.secrets.map fun s => s.name).Nodup) ∧
    pyUpper "extra_token" = pyUpper "EXTRA_TOKEN" ∧
    (∀ s ∈ dupSecretsConfig.secrets, s.managed = false →
      pyUpper s.name ∉ builtinSecretKeys) ∧
    (containerSecrets dupSecretsConfig sampleRds sampleRedis).length = 5 ∧
    (dupSecretsConfig.secrets.filter fun s => !s.managed).length = 2 ∧
    (containerSecrets dupSecretsConfig sampleRds sampleRedis).length ≠
      4 + (dupSecretsConfig.secrets.filter fun s => !s.managed).length := by
  refine ⟨?_, ?_, ?_, ?_, ?_, ?_⟩ <;> decide

/-- Statement of the amended claim C8: when additionally the unmanaged
secrets' uppercased names are pairwise distinct — (a) if no unmanaged
uppercased name equals a built-in key, the map has exactly 4 plus the number
of unmanaged secrets entries; (b) an unmanaged secret whose uppercased name
equals a built-in key silently overwrites the built-in reference with the
name-based lookup. -/
def C8Statement (cfg : OCSConfig) (rds : RdsStack) (redis : RedisStack) : Prop :=
  ((∀ k ∈ unmanagedNames cfg.secrets, k ∉ builtinSecretKeys) →
    (containerSecrets cfg rds redis).length =
      4 + (cfg.secrets.filter fun s => !s.managed).length) ∧
  (∀ s ∈ cfg.secrets, s.managed = false → pyUpper s.name ∈ builtinSecretKeys →
    dictFind (pyUpper s.name) (containerSecrets cfg rds redis) =
      some (EcsSecret.fromSecretsManager s.name))

/-- C8 (amended): when the unmanaged secrets' uppercased names are pairwise
distinct, the secrets map has exactly 4 plus the number of unmanaged secrets
entries whenever no unmanaged uppercased name equals a built-in key, and a
collision with a built-in key silently overwrites the built-in secret
reference with the name-based lookup rather than failing. -/
theorem c8_secrets_map_size_and_overwrite (cfg : OCSConfig) (rds : RdsStack)
    (redis : RedisStack) (hnd : (unmanagedNames cfg.secrets).Nodup) :
    C8Statement cfg rds redis := by
  constructor
  · intro habs
    have h := length_secretsLoop cfg.secrets (builtinSecrets cfg rds redis) hnd
      (fun k hk => by rw [keys_builtinSecrets]; exact habs k hk)
    rw [show containerSecrets cfg rds redis
        = cfg.secrets.foldl secretsLoopStep (builtinSecrets cfg rds redis) from rfl, h]
    simp [unmanagedNames, builtinSecrets]
  · intro s hs hum hbuiltin
    rcases List.append_of_mem hs with ⟨l₁, l₂, heq⟩
    have hnd' := hnd
    rw [heq, unmanagedNames_append, unmanagedNames_cons_unmanaged s l₂ hum] at hnd'
    have hnotin : pyUpper s.name ∉ unmanagedNames l₂ :=
      (List.nodup_cons.mp (List.nodup_append.mp hnd').2.1).1
    have hlast : ∀ u ∈ l₂, u.managed = false → pyUpper u.name ≠ pyUpper s.name := by
      intro u hu hum' hequ
      exact hnotin (hequ ▸ mem_unmanagedNames u l₂ hu hum')
    have hcs : containerSecrets cfg rds redis
        = (l₁ ++ s :: l₂).foldl secretsLoopStep (builtinSecrets cfg rds redis) := by
      show cfg.secrets.foldl secretsLoopStep (builtinSecrets cfg rds redis) = _
      rw [heq]
    rw [hcs]
    exact dictFind_secretsLoop_last l₁ l₂ s (builtinSecrets cfg rds redis) hum hlast

/-- C8 witness: the size formula holds at the sample configuration, and at the
colliding configuration the built-in SECRET_KEY reference is overwritten by
the name-based lookup. -/
theorem c8_sample :
    (unmanagedNames sampleConfig.secrets).Nodup ∧
    (unmanagedNames overrideConfig.secrets).Nodup ∧
    (containerSecrets sampleConfig sampleRds sampleRedis).length =
      4 + (sampleConfig.secrets.filter fun s => !s.managed).length ∧
    dictFind (pyUpper "secret_key")
        (containerSecrets overrideConfig sampleRds sampleRedis) =
      some (EcsSecret.fromSecretsManager "secret_key") :=
  ⟨by decide, by decide,
   (c8_secrets_map_size_and_overwrite sampleConfig sampleRds sampleRedis (by decide)).1
     (by decide),
   (c8_secrets_map_size_and_overwrite overrideConfig sampleRds sampleRedis (by decide)).2
     ⟨"secret_key", false⟩ (by decide) rfl (by decide)⟩

/-- Statement of claim C5: the web ACL holds exactly the two configured rules
at priorities 0 and 1 — the AWS managed common rule set with override count,
and the IP-aggregated rate rule with limit 2000 and action count — and no rule
carries a block action. -/
def C5Statement (cfg : OCSConfig) (lbArn : String) : Prop :=
  (wafStack cfg lbArn).webAcl.rules.length = 2 ∧
  ((wafStack cfg lbArn).webAcl.rules.map fun r => r.priority) = [0, 1] ∧
  ((wafStack cfg lbArn).webAcl.rules.map fun r => r.statement) =
    [WafStatement.managedRuleGroup
       { vendorName := "AWS", name := "AWSManagedRulesCommonRuleSet" },
     WafStatement.rateBased { limit := 2000, aggregateKeyType := "IP" }] ∧
  ((wafStack cfg lbArn).webAcl.rules.map fun r => r.overrideAction) =
    [some OverrideAction.count, none] ∧
  ((wafStack cfg lbArn).webAcl.rules.map fun r => r.action) =
    [none, some RuleAction.count] ∧
  (RuleAction.block ∉ (wafStack cfg lbArn).webAcl.rules.filterMap fun r => r.action)

/-- C5: the web ACL always contains exactly two rules — at priority 0 the AWS
managed common rule set (vendor AWS, name AWSManagedRulesCommonRuleSet) with
override action count, at priority 1 a rate-based rule aggregated by IP with
limit 2000 and action count — and neither rule specifies a blocking action. -/
theorem c5_webacl_two_count_rules (cfg : OCSConfig) (lbArn : String) :
    C5Statement cfg lbArn :=
  ⟨rfl, rfl, rfl, rfl, rfl, by show RuleAction.block ∉ [RuleAction.count]; decide⟩

/-- C5 witness: the property evaluated at the sample configuration. -/
theorem c5_sample : C5Statement sampleConfig "TOKEN.LoadBalancer.Arn" :=
  c5_webacl_two_count_rules sampleConfig "TOKEN.LoadBalancer.Arn"

/-- Statement of claim C6: the registry has exactly the two lifecycle rules
(delete untagged after 7 days; keep at most 4 of any tag status). -/
def C6Statement (cfg : OCSConfig) : Prop :=
  (setup_ecr cfg).lifecycleRules.length = 2 ∧
  (setup_ecr cfg).lifecycleRules =
    [{ maxImageAgeDays := some 7, maxImageCount := none, rulePriority := 1,
       tagStatus := TagStatus.UNTAGGED },
     { maxImageAgeDays := none, maxImageCount := some 4, rulePriority := 2,
       tagStatus := TagStatus.ANY }]

/-- C6: the registry descriptor always has exactly two retention rules — one
deleting untagged images older than 7 days and one keeping at most 4 images
regardless of tag status. -/
theorem c6_ecr_two_lifecycle_rules (cfg : OCSConfig) : C6Statement cfg :=
  ⟨rfl, rfl⟩

/-- C6 witness: the property evaluated at the sample configuration. -/
theorem c6_sample : C6Statement sampleConfig :=
  c6_ecr_two_lifecycle_rules sampleConfig

/-- Statement of claim C7: the fixed sizing and autoscaling numbers of the
load-balanced service, and min ≤ desired ≤ max. -/
def C7Statement (cfg : OCSConfig) (rds : RdsStack) (redis : RedisStack)
    (repo : String) : Prop :=
  (setup_fargate_service cfg rds redis repo).cpu = 256 ∧
  (setup_fargate_service cfg rds redis repo).memoryLimitMiB = 512 ∧
  (setup_fargate_service cfg rds redis repo).desiredCount = 1 ∧
  (setup_fargate_service cfg rds redis repo).scaling.minCapacity = 1 ∧
  (setup_fargate_service cfg rds redis repo).scaling.maxCapacity = 2 ∧
  (setup_fargate_service cfg rds redis repo).scaling.minCapacity ≤
    (setup_fargate_service cfg rds redis repo).desiredCount ∧
  (setup_fargate_service cfg rds redis repo).desiredCount ≤
    (setup_fargate_service cfg rds redis repo).scaling.maxCapacity ∧
  (setup_fargate_service cfg rds redis repo).scaling.targetUtilizationPercent = 70 ∧
  (setup_fargate_service cfg rds redis repo).scaling.scaleInCooldownSeconds = 60 ∧
  (setup_fargate_service cfg rds redis repo).scaling.scaleOutCooldownSeconds = 60

/-- C7: the load-balanced service is declared with cpu 256, memory 512 MiB,
desired count 1, autoscaling minimum 1 and maximum 2 (so 1 ≤ 1 ≤ 2 holds),
scaling on 70% target CPU with 60-second scale-in and scale-out cooldowns. -/
theorem c7_service_sizing_and_autoscaling (cfg : OCSConfig) (rds : RdsStack)
    (redis : RedisStack) (repo : String) : C7Statement cfg rds redis repo :=
  ⟨rfl, rfl, rfl, rfl, rfl, by show (1 : Nat) ≤ 1; decide, by show (1 : Nat) ≤ 2; decide,
    rfl, rfl, rfl⟩

/-- C7 witness: the property evaluated at the sample inputs. -/
theorem c7_sample : C7Statement sampleConfig sampleRds sampleRedis "ocs-ecr" :=
  c7_service_sizing_and_autoscaling sampleConfig sampleRds sampleRedis "ocs-ecr"

/-- Statement of claim C9: the web ACL's default action is allow, every rule's
action or override is count, and no rule carries a block action. -/
def C9Statement (cfg : OCSConfig) (lbArn : String) : Prop :=
  (wafStack cfg lbArn).webAcl.defaultAction = DefaultAction.allow ∧
  ((wafStack cfg lbArn).webAcl.rules.map fun r => (r.action, r.overrideAction)) =
    [(none, some OverrideAction.count), (some RuleAction.count, none)] ∧
  ((wafStack cfg lbArn).webAcl.rules.all fun r =>
    decide (r.action = some RuleAction.count)
      || decide (r.overrideAction = some OverrideAction.count)) = true ∧
  (RuleAction.block ∉ (wafStack cfg lbArn).webAcl.rules.filterMap fun r => r.action)

/-- C9: the web ACL's default action is allow and, every rule carrying a count
action or count override, the synthesized firewall contains no blocking action
anywhere. -/
theorem c9_default_allow_no_block (cfg : OCSConfig) (lbArn : String) :
    C9Statement cfg lbArn :=
  ⟨rfl, rfl, rfl, by show RuleAction.block ∉ [RuleAction.count]; decide⟩

/-- C9 witness: the property evaluated at the sample configuration. -/
theorem c9_sample : C9Statement sampleConfig "TOKEN.LoadBalancer.Arn" :=
  c9_default_allow_no_block sampleConfig "TOKEN.LoadBalancer.Arn"

/-- Statement of claim C10: the two containers share image (registry image at
tag latest), environment, secrets, log driver and (absent) health check, and
differ only in name, command, essential flag and port mappings. -/
def C10Statement (cfg : OCSConfig) (rds : RdsStack) (redis : RedisStack)
    (repo : String) : Prop :=
  ∃ m w, (get_task_definition cfg rds redis repo).containers = [m, w] ∧
    m.containerName = "migrate" ∧ w.containerName = "web" ∧
    m.image = w.image ∧ m.image = { repository := repo, tag := "latest" } ∧
    m.environment = w.environment ∧ m.secrets = w.secrets ∧
    m.logging = w.logging ∧ m.healthCheck = w.healthCheck ∧
    m.containerName ≠ w.containerName ∧ m.command ≠ w.command ∧
    m.essential ≠ w.essential ∧ m.portMappings ≠ w.portMappings

/-- C10: the migration and web containers are declared with the same container
image (the registry image at tag latest), identical environment maps,
identical secrets maps and the same log driver, and differ only in name,
command, essential flag and port mappings. -/
theorem c10_container_config_sharing (cfg : OCSConfig) (rds : RdsStack)
    (redis : RedisStack) (repo : String) : C10Statement cfg rds redis repo :=
  ⟨_, _, rfl, rfl, rfl, rfl, rfl, rfl, rfl, rfl, rfl,
    by show "migrate" ≠ "web"; decide,
    by show some ["python", "manage.py", "migrate"] ≠ (none : Option (List String)); decide,
    by show false ≠ true; decide,
    by show ([] : List PortMapping) ≠ [{ containerPort := container_port }]; decide⟩

/-- C10 witness: the property evaluated at the sample inputs. -/
theorem c10_sample : C10Statement sampleConfig sampleRds sampleRedis "ocs-ecr" :=
  c10_container_config_sharing sampleConfig sampleRds sampleRedis "ocs-ecr"

end OcsDeploy
